import Mathlib

/-!
Verification of the neweats backend (recipe-and-shopping-list REST service):
a shallow embedding of its data-access layer and authorization predicates,
with theorems settling the specified properties.

The relational store is modelled as explicit state passed through each
operation; fallible operations return `Except` with the service's error
taxonomy (`expressError.js`).
-/

namespace NewEats

/-- The error hierarchy of `expressError.js`: each error carries a message
and an HTTP status determined by its kind. -/
inductive AppError where
  | notFoundError (msg : String)
  | unauthorizedError (msg : String)
  | badRequestError (msg : String)
  | forbiddenError (msg : String)
  | internalError (msg : String)
deriving DecidableEq, Repr

/-- HTTP status of an error, as assigned by the `expressError.js` constructors. -/
def AppError.status : AppError → Nat
  | .notFoundError _ => 404
  | .unauthorizedError _ => 401
  | .badRequestError _ => 400
  | .forbiddenError _ => 403
  | .internalError _ => 500

/-- Postgres array containment `xs <@ ys`: every element of `xs` occurs in
`ys` (set semantics, duplicates ignored).  This is the operator used in the
`ON CONFLICT` clause of `ShoppingList.addRecipeIngredients`. -/
def containedBy (xs ys : List String) : Bool :=
  xs.all (fun x => ys.contains x)

/-- The slice of the relational store one shopping-list request touches:
whether the addressed `user_id` exists in `users`, and that user's
`shopping_list` row (`none` when no row exists; `shopping_list.user_id` is
unique, so at most one row per user). -/
structure SLState where
  user_id : Nat
  userExists : Bool
  ingredients : Option (List String)
deriving DecidableEq, Repr

namespace ShoppingList

/-- `ShoppingList.getUserShoppingList` (shopping-list.js:62-75): SELECT the
user's row; return its ingredients array, or `[]` when no row exists. -/
def getUserShoppingList (st : SLState) : List String :=
  match st.ingredients with
  | some l => l
  | none => []

/-- `ShoppingList.addRecipeIngredients` (shopping-list.js:13-35): check the
user exists (else `NotFoundError`); then
`INSERT INTO shopping_list (user_id, ingredients) VALUES ($1, $2)
 ON CONFLICT (user_id) DO UPDATE SET ingredients = shopping_list.ingredients || $2
 WHERE NOT ($2 <@ shopping_list.ingredients)`:
with no existing row the row becomes exactly the input; with an existing row
the `DO UPDATE` fires only when the input array as a whole is not contained
in the stored array, and then appends the whole input array; finally return
`getUserShoppingList`.  Returns the new store slice and the returned list. -/
def addRecipeIngredients (st : SLState) (ingredients : List String) :
    Except AppError (SLState × List String) :=
  if st.userExists = false then
    .error (.notFoundError ("No user found with ID: " ++ toString st.user_id))
  else
    let newRow : Option (List String) :=
      match st.ingredients with
      | none => some ingredients
      | some stored =>
          if containedBy ingredients stored then some stored
          else some (stored ++ ingredients)
    let st2 : SLState := { st with ingredients := newRow }
    .ok (st2, getUserShoppingList st2)

/-- `ShoppingList.updateList` (shopping-list.js:44-54):
`INSERT ... ON CONFLICT (user_id) DO UPDATE SET ingredients = $2` — an
unconditional upsert overwriting the row with the given array; returns the
confirmation message object, not the list.  The insert path violates the
`shopping_list.user_id` foreign key when the user does not exist, which the
store surfaces as an error. -/
def updateList (st : SLState) (ingredients : List String) :
    Except AppError (SLState × String) :=
  if st.userExists = false then
    .error (.internalError "foreign key violation: shopping_list.user_id")
  else
    .ok ({ st with ingredients := some ingredients },
         "Shopping list updated successfully.")

end ShoppingList

/-- Identity claims carried by the bearer credential: payload
`{ firstName, user_id }` (helpers/tokens.js `createToken`); the subject
identifier used for ownership comparison is `user_id` as a string.  The
issued-at timestamp plays no role in authorization and is not modelled. -/
structure Claims where
  firstName : String
  user_id : String
deriving DecidableEq, Repr

/-- The Authorization Gate's failure outcomes (specification 4.3): both
render as 401 Unauthorized at the HTTP boundary. -/
inductive AuthzError where
  | authenticationRequired
  | ownershipMismatch
deriving DecidableEq, Repr

/-- Outcome of the opaque token-verification collaborator
`verify(token) → claims | fail` (bad signature, malformed and expired all
fall under `invalid`). -/
inductive VerifyOutcome where
  | valid (c : Claims)
  | invalid
deriving DecidableEq, Repr

/-- Modelled from the spec: middleware/auth.js is not among the source files
(only its test file is); section 4.2 describes extracting the bearer token
from an authorization header of the form `Bearer <token>`, so the token is
the header with that 7-character scheme marker removed. -/
def bearerToken (header : String) : String :=
  header.drop 7

/-- Modelled from the spec: the Credential Verifier `authenticateJWT` of
middleware/auth.js is not among the source files (only its test file is).
Section 4.2: if no authorization transport is present, or the token fails
verification, the identity context is left empty and processing continues —
this step never rejects a request by itself; only a verified token
populates the context with the decoded claims. -/
def authenticateJWT (verify : String → VerifyOutcome)
    (authHeader : Option String) : Except AuthzError (Option Claims) :=
  match authHeader with
  | none => .ok none
  | some h =>
      match verify (bearerToken h) with
      | .invalid => .ok none
      | .valid c => .ok (some c)

/-- Modelled from the spec: the Authorization Gate `ensureCorrectUser` of
middleware/auth.js is not among the source files (only its test file is).
Section 4.3 require-owner: fails AuthenticationRequired when the identity
context is empty; fails OwnershipMismatch when the context's subject
identifier does not equal the path-supplied owner identifier
(string-compared, not type-coerced); passes otherwise. -/
def ensureCorrectUser (ctx : Option Claims) (pathUserId : String) :
    Except AuthzError Unit :=
  match ctx with
  | none => .error .authenticationRequired
  | some c =>
      if c.user_id = pathUserId then .ok ()
      else .error .ownershipMismatch

/-- Storage column name for a logical field (specification 4.1): the
remapped name when the field appears in the remapping table, the field's
own name verbatim otherwise. -/
def storageColumn (jsToSql : List (String × String)) (field : String) : String :=
  match jsToSql.find? (fun q => q.1 == field) with
  | some q => q.2
  | none => field

/-- One `"<column> = $<i>"` fragment per field of `data`, in supplied order,
numbering placeholders sequentially from `start + 1`. -/
def setFragments (jsToSql : List (String × String))
    (data : List (String × String)) (start : Nat) : List String :=
  match data with
  | [] => []
  | p :: rest =>
      (storageColumn jsToSql p.1 ++ " = $" ++ toString (start + 1))
        :: setFragments jsToSql rest (start + 1)

/-- Modelled from the spec: the Partial-Update Clause Builder
`sqlForPartialUpdate` of helpers/sql.js is not among the source files (only
its caller `User.update` is).  Section 4.1: input is a sparse
field-to-value mapping (kept here as an ordered association list, matching
"in the same order the input fields were supplied") and a
field-to-storage-column remapping table; output is one
`"<column> = $<i>"` fragment per input field in supplied order with
1-based sequential placeholder numbering, plus the same-ordered value
list; fails with an EmptyInputError (a BadRequestError) when the field
mapping is empty. -/
def sqlForPartialUpdate (data : List (String × String))
    (jsToSql : List (String × String)) :
    Except AppError (List String × List String) :=
  match data with
  | [] => .error (.badRequestError "No data")
  | _ => .ok (setFragments jsToSql data 0, data.map (fun p => p.2))

/-- A row of `users` as `User.authenticate` SELECTs it (user.js:31-41):
user_id, username, password digest, firstName, lastName, email.
`password` is `none` when the nullable digest column is empty and after
the digest has been stripped from a returned profile. -/
structure AuthUser where
  user_id : Nat
  username : String
  password : Option String
  firstName : String
  lastName : String
  email : String
deriving DecidableEq, Repr

/-- `User.authenticate` (user.js:29-55): select the row whose username
matches (`result.rows[0]` — the first such row); when present, compare the
supplied plaintext against the stored digest through the opaque bcrypt
collaborator; on match delete the password from the row and return it;
otherwise — row absent and digest mismatch alike — throw
`UnauthorizedError("Invalid username/password")`. -/
def User.authenticate (bcryptCompare : String → Option String → Bool)
    (users : List AuthUser) (username password : String) :
    Except AppError AuthUser :=
  match users.find? (fun r => r.username == username) with
  | some user =>
      if bcryptCompare password user.password = true then
        .ok { user with password := none }
      else
        .error (.unauthorizedError "Invalid username/password")
  | none => .error (.unauthorizedError "Invalid username/password")

/-- `sanitize` (recipe.js:28): `str.replace(/"/g, '\\"')` — every double
quote becomes a backslash followed by a double quote. -/
def sanitize (s : String) : String :=
  String.join (s.data.map (fun c => if c = '"' then "\\\"" else String.singleton c))

/-- Lower-case hexadecimal digit, for JSON control-character escapes. -/
def hexDigit (n : Nat) : Char :=
  if n < 10 then Char.ofNat (48 + n) else Char.ofNat (87 + n)

/-- JSON string escaping as `JSON.stringify` applies it to one character:
quote and backslash escaped, the named control characters by their short
escapes, any other control character by a `\u00XX` escape. -/
def jsonEscapeChar (c : Char) : String :=
  if c = '"' then "\\\""
  else if c = '\\' then "\\\\"
  else if c.toNat = 8 then "\\b"
  else if c = '\t' then "\\t"
  else if c = '\n' then "\\n"
  else if c.toNat = 12 then "\\f"
  else if c = '\r' then "\\r"
  else if c.toNat < 32 then
    "\\u00" ++ String.singleton (hexDigit (c.toNat / 16))
      ++ String.singleton (hexDigit (c.toNat % 16))
  else String.singleton c

/-- `JSON.stringify` of a string value. -/
def jsonQuoteStr (s : String) : String :=
  "\"" ++ String.join (s.data.map jsonEscapeChar) ++ "\""

/-- `JSON.stringify` of an array of strings, as `createRecipe` applies it to
the ingredients. -/
def jsonStringifyArr (xs : List String) : String :=
  "[" ++ String.intercalate "," (xs.map jsonQuoteStr) ++ "]"

/-- A row of `recipes`: externally supplied string key, label, image URL,
ingredients array, source URL. -/
structure RecipeRow where
  recipe_id : String
  label : String
  image : String
  ingredients : List String
  url : String
deriving DecidableEq, Repr

/-- What `Recipe.createRecipe` returns: on the duplicate path, the array
`[sanitizedLabel, sanitizedImage, sanitizedIngredientsJson, sanitizedUrl]`
echoing the sanitized input (recipe.js:45); on the insert path, the
projection of the row the store returns
(`RETURNING label, image, ingredients, url`). -/
inductive CreateRecipeResult where
  | duplicateEcho (fields : List String)
  | inserted (label image : String) (ingredients : List String) (url : String)
deriving DecidableEq, Repr

/-- `Recipe.createRecipe` (recipe.js:27-65): sanitize recipe_id, label,
image, url, and `JSON.stringify(ingredients)`; look the key up with the
unsanitized `recipe_id`; if a row exists, return the echo of the sanitized
input and leave the store untouched; otherwise insert a row (sanitized
scalar fields, raw ingredients array) and return the inserted row's
projection. -/
def Recipe.createRecipe (store : List RecipeRow)
    (recipe_id label image : String) (ingredients : List String)
    (url : String) : List RecipeRow × CreateRecipeResult :=
  let s_id := sanitize recipe_id
  let s_label := sanitize label
  let s_image := sanitize image
  let s_url := sanitize url
  let s_ingredients := sanitize (jsonStringifyArr ingredients)
  match store.find? (fun row => row.recipe_id == recipe_id) with
  | some _ => (store, .duplicateEcho [s_label, s_image, s_ingredients, s_url])
  | none =>
      let row : RecipeRow :=
        { recipe_id := s_id, label := s_label, image := s_image,
          ingredients := ingredients, url := s_url }
      (store ++ [row], .inserted s_label s_image ingredients s_url)

/-- The `list` field of a shopping-route JSON response: the GET and POST
handlers place an ingredient array there; the PATCH handler places whatever
`ShoppingList.updateList` returned. -/
inductive ListField where
  | items (l : List String)
  | confirmation (message : String)
deriving DecidableEq, Repr

/-- The success path of the PATCH /shopping/:user_id handler (shopping
routes file, `router.patch`): after `ensureCorrectUser` has passed, the
path id parsed as a number and the body validated against the schema, the
handler runs `ShoppingList.updateList(userId, req.body.ingredients)` and
responds `res.json({ list })` with status 200, where `list` is exactly
updateList's return value — the confirmation message object. -/
def shoppingPatchHandler (st : SLState) (ingredients : List String) :
    Except AppError (SLState × Nat × ListField) :=
  match ShoppingList.updateList st ingredients with
  | .error e => .error e
  | .ok (st2, msg) => .ok (st2, 200, ListField.confirmation msg)

/-! ## Helper lemmas -/

theorem containedBy_iff (xs ys : List String) :
    containedBy xs ys = true ↔ ∀ x ∈ xs, x ∈ ys := by
  simp [containedBy]

theorem containedBy_self (xs : List String) : containedBy xs xs = true := by
  rw [containedBy_iff]
  intro x hx
  exact hx

theorem containedBy_append_self (xs ys : List String) :
    containedBy xs (ys ++ xs) = true := by
  rw [containedBy_iff]
  intro x hx
  exact List.mem_append_right ys hx

/-- `addRecipeIngredients` on a user with no shopping-list row: the insert
path stores exactly the input. -/
theorem addRecipeIngredients_fresh (uid : Nat) (xs : List String) :
    ShoppingList.addRecipeIngredients ⟨uid, true, none⟩ xs
      = .ok (⟨uid, true, some xs⟩, xs) := rfl

/-- `addRecipeIngredients` on a user with an existing row: the `DO UPDATE`
path, gated on the whole-array containment check. -/
theorem addRecipeIngredients_existing (uid : Nat) (stored xs : List String) :
    ShoppingList.addRecipeIngredients ⟨uid, true, some stored⟩ xs
      = if containedBy xs stored
        then .ok (⟨uid, true, some stored⟩, stored)
        else .ok (⟨uid, true, some (stored ++ xs)⟩, stored ++ xs) := by
  by_cases hc : containedBy xs stored <;>
    simp [ShoppingList.addRecipeIngredients, ShoppingList.getUserShoppingList, hc]

theorem setFragments_length (jsToSql data : List (String × String))
    (start : Nat) : (setFragments jsToSql data start).length = data.length := by
  induction data generalizing start with
  | nil => rfl
  | cons p rest ih => simp [setFragments, ih]

theorem setFragments_getD (jsToSql : List (String × String)) :
    ∀ (data : List (String × String)) (start i : Nat), i < data.length →
      (setFragments jsToSql data start).getD i ""
        = storageColumn jsToSql (data.getD i ("", "")).1
            ++ " = $" ++ toString (start + i + 1) := by
  intro data
  induction data with
  | nil =>
      intro start i h
      simp at h
  | cons p rest ih =>
      intro start i h
      cases i with
      | zero => simp [setFragments]
      | succ n =>
          have hn : n < rest.length := by simpa using h
          have harith : start + 1 + n + 1 = start + (n + 1) + 1 := by omega
          simpa [setFragments, harith] using ih (start + 1) n hn

/-! ## Claim theorems -/

/-- C1 counterexample: after replaceList(u, ["i1"]) the stored array is
["i1"]; mergeAppend(u, ["i1","i2"]) then stores ["i1","i1","i2"] — the
whole input array is appended because it is not contained as a whole in
the stored array — and not the ["i1","i2"] the claim states. -/
theorem claim1_merge_union_counterexample :
    (ShoppingList.updateList ⟨1, true, none⟩ ["i1"]).toOption.map
        (fun p => (ShoppingList.addRecipeIngredients p.1 ["i1", "i2"]).toOption.map
          (fun q => q.1.ingredients))
      = some (some (some ["i1", "i1", "i2"]))
    ∧ (["i1", "i1", "i2"] : List String) ≠ ["i1", "i2"] := by
  exact ⟨rfl, by decide⟩

/-- C1 (amended): for a user with an existing stored array, mergeAppend
leaves the store unchanged when the whole input array is contained in the
stored array, and otherwise appends the entire input verbatim after the
existing elements — elements already present are re-added along with the
rest; in particular replaceList(u, ["i1"]) then mergeAppend(u, ["i1","i2"])
stores ["i1","i1","i2"]. -/
theorem claim1_merge_union_amended (st : SLState) (stored xs : List String)
    (hu : st.userExists = true) (hs : st.ingredients = some stored) :
    (containedBy xs stored = true →
        ShoppingList.addRecipeIngredients st xs = .ok (st, stored))
    ∧ (containedBy xs stored = false →
        ShoppingList.addRecipeIngredients st xs
          = .ok ({ st with ingredients := some (stored ++ xs) }, stored ++ xs)) := by
  obtain ⟨uid, ue, ing⟩ := st
  cases hu
  cases hs
  rw [addRecipeIngredients_existing]
  constructor
  · intro hc
    rw [hc]
    simp
  · intro hc
    rw [hc]
    simp

/-- C1 witness: the amended theorem applied at the claim's own example —
stored array ["i1"], input ["i1","i2"], yielding ["i1","i1","i2"]. -/
theorem claim1_merge_union_witness :
    ShoppingList.addRecipeIngredients ⟨1, true, some ["i1"]⟩ ["i1", "i2"]
      = .ok (⟨1, true, some ["i1", "i1", "i2"]⟩, ["i1", "i1", "i2"]) :=
  (claim1_merge_union_amended ⟨1, true, some ["i1"]⟩ ["i1"] ["i1", "i2"]
    rfl rfl).2 rfl

/-- C5: mergeAppend is idempotent — when mergeAppend(u, X) succeeds with
resulting store slice `st1` and returned list `r1`, running
mergeAppend(u, X) again from `st1` succeeds, leaves the store slice exactly
`st1` and returns the same list: no duplicate growth from the second call. -/
theorem claim5_mergeAppend_idempotent (st : SLState) (xs : List String)
    (st1 : SLState) (r1 : List String)
    (h : ShoppingList.addRecipeIngredients st xs = .ok (st1, r1)) :
    ShoppingList.addRecipeIngredients st1 xs = .ok (st1, r1) := by
  obtain ⟨uid, ue, ing⟩ := st
  cases ue with
  | false => simp [ShoppingList.addRecipeIngredients] at h
  | true =>
      cases ing with
      | none =>
          rw [addRecipeIngredients_fresh] at h
          obtain ⟨rfl, rfl⟩ : st1 = ⟨uid, true, some xs⟩ ∧ r1 = xs := by
            simpa [eq_comm] using h
          rw [addRecipeIngredients_existing, if_pos (containedBy_self _)]
      | some stored =>
          rw [addRecipeIngredients_existing] at h
          by_cases hc : containedBy xs stored
          · rw [if_pos hc] at h
            obtain ⟨rfl, rfl⟩ : st1 = ⟨uid, true, some stored⟩ ∧ r1 = stored := by
              simpa [eq_comm] using h
            rw [addRecipeIngredients_existing, if_pos hc]
          · rw [if_neg hc] at h
            obtain ⟨rfl, rfl⟩ :
                st1 = ⟨uid, true, some (stored ++ xs)⟩ ∧ r1 = stored ++ xs := by
              simpa [eq_comm] using h
            rw [addRecipeIngredients_existing,
              if_pos (containedBy_append_self _ _)]

/-- C5 witness: the idempotence theorem applied after
mergeAppend(u, ["a","b"]) on stored list ["a"], whose result is
["a","a","b"]: the second identical call changes nothing. -/
theorem claim5_mergeAppend_idempotent_witness :
    ShoppingList.addRecipeIngredients ⟨1, true, some ["a", "a", "b"]⟩ ["a", "b"]
      = .ok (⟨1, true, some ["a", "a", "b"]⟩, ["a", "a", "b"]) :=
  claim5_mergeAppend_idempotent ⟨1, true, some ["a"]⟩ ["a", "b"]
    ⟨1, true, some ["a", "a", "b"]⟩ ["a", "a", "b"] rfl

/-- C6: replaceList (updateList) upserts unconditionally, overwriting any
existing stored array with exactly the given sequence verbatim (no
deduplication, no merge), after which getList returns that sequence; in
particular mergeAppend(u, ["i1","i2"]) then replaceList(u, ["i3"]) then
getList(u) gives exactly ["i3"]. -/
theorem claim6_replaceList_overwrites (st : SLState) (xs : List String)
    (hu : st.userExists = true) :
    ShoppingList.updateList st xs
      = .ok ({ st with ingredients := some xs },
          "Shopping list updated successfully.")
    ∧ ShoppingList.getUserShoppingList { st with ingredients := some xs } = xs
    ∧ (ShoppingList.addRecipeIngredients ⟨1, true, none⟩ ["i1", "i2"]).toOption.map
        (fun p => (ShoppingList.updateList p.1 ["i3"]).toOption.map
          (fun q => ShoppingList.getUserShoppingList q.1))
      = some (some ["i3"]) := by
  refine ⟨?_, rfl, rfl⟩
  simp [ShoppingList.updateList, hu]

/-- C6 witness: the overwrite theorem applied to a user whose stored array
is ["i1","i2"], replacing it with ["i3"]. -/
theorem claim6_replaceList_overwrites_witness :
    ShoppingList.updateList ⟨1, true, some ["i1", "i2"]⟩ ["i3"]
      = .ok (⟨1, true, some ["i3"]⟩, "Shopping list updated successfully.") :=
  (claim6_replaceList_overwrites ⟨1, true, some ["i1", "i2"]⟩ ["i3"] rfl).1

/-- C10: for a user with an existing stored array S, mergeAppend with input
N is all-or-nothing: when every element of N is already in S the store is
left exactly S, and otherwise the store becomes S concatenated with the
entire array N verbatim — including the elements of N already present in S;
the containment check applies to N as a whole, never element by element. -/
theorem claim10_mergeAppend_all_or_nothing (st : SLState)
    (stored xs : List String)
    (hu : st.userExists = true) (hs : st.ingredients = some stored) :
    ((∀ x ∈ xs, x ∈ stored) →
        ShoppingList.addRecipeIngredients st xs = .ok (st, stored))
    ∧ ((¬ ∀ x ∈ xs, x ∈ stored) →
        ShoppingList.addRecipeIngredients st xs
          = .ok ({ st with ingredients := some (stored ++ xs) },
              stored ++ xs)) := by
  obtain ⟨uid, ue, ing⟩ := st
  cases hu
  cases hs
  rw [addRecipeIngredients_existing]
  constructor
  · intro hmem
    rw [if_pos ((containedBy_iff xs stored).mpr hmem)]
  · intro hmem
    have hc : containedBy xs stored = false := by
      cases h : containedBy xs stored
      · rfl
      · exact absurd ((containedBy_iff xs stored).mp h) hmem
    rw [if_neg (by simp [hc])]

/-- C10 witness: the all-or-nothing theorem applied twice-over at one
concrete input on its first branch — stored ["i1","i2"], input ["i1"],
every input element already present, store left exactly as it was. -/
theorem claim10_mergeAppend_all_or_nothing_witness :
    ShoppingList.addRecipeIngredients ⟨2, true, some ["i1", "i2"]⟩ ["i1"]
      = .ok (⟨2, true, some ["i1", "i2"]⟩, ["i1", "i2"]) :=
  (claim10_mergeAppend_all_or_nothing ⟨2, true, some ["i1", "i2"]⟩
    ["i1", "i2"] ["i1"] rfl rfl).1 (by decide)

/-- C2: the require-owner predicate passes iff the identity context is
non-empty and the claims subject identifier string-equals the path-supplied
owner identifier; an empty context fails with AuthenticationRequired; a
populated context whose subject differs — e.g. claims "0" against path
"NaN" — fails with OwnershipMismatch; comparison is plain string equality
with no numeric coercion. -/
theorem claim2_ensureCorrectUser_owner (ctx : Option Claims)
    (pathUserId : String) :
    ((ensureCorrectUser ctx pathUserId).isOk = true
        ↔ ∃ c, ctx = some c ∧ c.user_id = pathUserId)
    ∧ (ctx = none →
        ensureCorrectUser ctx pathUserId = .error .authenticationRequired)
    ∧ (∀ c, ctx = some c → c.user_id ≠ pathUserId →
        ensureCorrectUser ctx pathUserId = .error .ownershipMismatch)
    ∧ ensureCorrectUser (some ⟨"test", "0"⟩) "NaN"
        = .error .ownershipMismatch := by
  refine ⟨?_, ?_, ?_, rfl⟩
  · cases ctx with
    | none => simp [ensureCorrectUser, Except.isOk, Except.toBool]
    | some c =>
        by_cases hc : c.user_id = pathUserId <;>
          simp [ensureCorrectUser, Except.isOk, Except.toBool, hc]
  · intro h
    subst h
    rfl
  · intro c hc hne
    subst hc
    simp [ensureCorrectUser, hne]

/-- C3: for every non-empty sparse field map the clause builder returns one
"<column> = $<i>" fragment per input field, in supplied order, with
placeholder indices exactly 1..N, remapped column names for fields in the
remapping table and the field's own name otherwise, plus the same-ordered
value list; the empty field map fails with the EmptyInputError
(BadRequestError "No data"). -/
theorem claim3_sqlForPartialUpdate_clauses
    (data jsToSql : List (String × String)) :
    (data = [] →
        sqlForPartialUpdate data jsToSql
          = .error (.badRequestError "No data"))
    ∧ (data ≠ [] → ∃ frags vals,
        sqlForPartialUpdate data jsToSql = .ok (frags, vals)
        ∧ frags.length = data.length
        ∧ vals = data.map (fun p => p.2)
        ∧ ∀ i, i < data.length →
            frags.getD i ""
              = storageColumn jsToSql (data.getD i ("", "")).1
                  ++ " = $" ++ toString (i + 1)) := by
  constructor
  · intro h
    subst h
    rfl
  · intro h
    refine ⟨setFragments jsToSql data 0, data.map (fun p => p.2), ?_, ?_, rfl, ?_⟩
    · cases data with
      | nil => exact absurd rfl h
      | cons p rest => rfl
    · exact setFragments_length jsToSql data 0
    · intro i hi
      simpa using setFragments_getD jsToSql data 0 i hi

/-- C3 witness: the clause-builder theorem applied to the field map
[firstName ↦ "New", email ↦ "e@x.com"] with the user-directory remapping
table: firstName is remapped to first_name, email keeps its own name, and
the placeholders are $1, $2 in supplied order. -/
theorem claim3_sqlForPartialUpdate_clauses_witness :
    sqlForPartialUpdate [("firstName", "New"), ("email", "e@x.com")]
        [("firstName", "first_name"), ("lastName", "last_name")]
      = .ok (["first_name = $1", "email = $2"], ["New", "e@x.com"])
    ∧ sqlForPartialUpdate ([] : List (String × String))
        [("firstName", "first_name"), ("lastName", "last_name")]
      = .error (.badRequestError "No data") := by
  have h0 := claim3_sqlForPartialUpdate_clauses
    ([] : List (String × String))
    [("firstName", "first_name"), ("lastName", "last_name")]
  exact ⟨by rfl, h0.1 rfl⟩

/-- C4: the Credential Verifier never rejects a request by itself: for every
verification collaborator and authorization header it returns without error;
an absent header or a failed verification leaves the identity context
empty, and only a verified token populates it with the decoded claims. -/
theorem claim4_authenticateJWT_never_rejects
    (verify : String → VerifyOutcome) (authHeader : Option String) :
    (∃ ctx, authenticateJWT verify authHeader = .ok ctx)
    ∧ (authHeader = none → authenticateJWT verify authHeader = .ok none)
    ∧ (∀ h, authHeader = some h → verify (bearerToken h) = .invalid →
        authenticateJWT verify authHeader = .ok none)
    ∧ (∀ h c, authHeader = some h → verify (bearerToken h) = .valid c →
        authenticateJWT verify authHeader = .ok (some c)) := by
  refine ⟨?_, ?_, ?_, ?_⟩
  · cases hh : authHeader with
    | none => exact ⟨none, rfl⟩
    | some h =>
        cases hv : verify (bearerToken h) with
        | invalid => exact ⟨none, by simp [authenticateJWT, hv]⟩
        | valid c => exact ⟨some c, by simp [authenticateJWT, hv]⟩
  · intro h
    subst h
    rfl
  · intro h hh hv
    subst hh
    simp [authenticateJWT, hv]
  · intro h c hh hv
    subst hh
    simp [authenticateJWT, hv]

/-- C7: User.authenticate fails with one and the same
UnauthorizedError("Invalid username/password") outcome both when no row
matches the username and when the digest comparison fails — the two causes
are indistinguishable in the returned value — and on success returns the
matched row with the password digest stripped. -/
theorem claim7_authenticate_indistinguishable
    (bcryptCompare : String → Option String → Bool) (users : List AuthUser)
    (username password : String) :
    (users.find? (fun r => r.username == username) = none →
        User.authenticate bcryptCompare users username password
          = .error (.unauthorizedError "Invalid username/password"))
    ∧ (∀ u, users.find? (fun r => r.username == username) = some u →
        bcryptCompare password u.password = false →
        User.authenticate bcryptCompare users username password
          = .error (.unauthorizedError "Invalid username/password"))
    ∧ (∀ u, users.find? (fun r => r.username == username) = some u →
        bcryptCompare password u.password = true →
        User.authenticate bcryptCompare users username password
          = .ok { u with password := none }) := by
  refine ⟨?_, ?_, ?_⟩
  · intro hn
    simp [User.authenticate, hn]
  · intro u hu hc
    simp [User.authenticate, hu, hc]
  · intro u hu hc
    simp [User.authenticate, hu, hc]

/-- C8: at the failing input — owner-authorized PATCH /shopping/1 with
schema-valid body ingredients ["i3"], user 1 existing with stored list
["i1","i2"] — the handler's success response carries status 200 but its
`list` field is the confirmation message object returned by updateList,
which is not an ingredient array, contradicting the claimed
200 with list = the ingredient array. -/
theorem claim8_patch_shopping_list_field_is_message :
    shoppingPatchHandler ⟨1, true, some ["i1", "i2"]⟩ ["i3"]
      = .ok (⟨1, true, some ["i3"]⟩, 200,
          ListField.confirmation "Shopping list updated successfully.")
    ∧ ∀ l, ListField.confirmation "Shopping list updated successfully."
        ≠ ListField.items l := by
  refine ⟨rfl, ?_⟩
  intro l h
  cases h

/-- C9: when the recipe key already exists in the store, createRecipe leaves
the store untouched (no row inserted or modified) and returns the
sanitized-input echo — the duplicate-path array of sanitized fields — rather
than the canonical stored row. -/
theorem claim9_createRecipe_duplicate_echoes_input (store : List RecipeRow)
    (recipe_id label image : String) (ingredients : List String)
    (url : String) (r : RecipeRow)
    (h : store.find? (fun row => row.recipe_id == recipe_id) = some r) :
    Recipe.createRecipe store recipe_id label image ingredients url
      = (store, .duplicateEcho [sanitize label, sanitize image,
          sanitize (jsonStringifyArr ingredients), sanitize url]) := by
  simp [Recipe.createRecipe, h]

/-- C9 witness: a second creation request for the already-stored key
"123abc" with differing field values leaves the store as it was and echoes
the sanitized new input, not the stored row's data. -/
theorem claim9_createRecipe_duplicate_echoes_input_witness :
    Recipe.createRecipe
        [⟨"123abc", "r1", "www.i1.com", ["i1", "i2"], "www.test1.com"⟩]
        "123abc" "r2" "www.i2.com" ["i3"] "www.test2.com"
      = ([⟨"123abc", "r1", "www.i1.com", ["i1", "i2"], "www.test1.com"⟩],
          .duplicateEcho [sanitize "r2", sanitize "www.i2.com",
            sanitize (jsonStringifyArr ["i3"]), sanitize "www.test2.com"]) :=
  claim9_createRecipe_duplicate_echoes_input
    [⟨"123abc", "r1", "www.i1.com", ["i1", "i2"], "www.test1.com"⟩]
    "123abc" "r2" "www.i2.com" ["i3"] "www.test2.com"
    ⟨"123abc", "r1", "www.i1.com", ["i1", "i2"], "www.test1.com"⟩ rfl

end NewEats
